import Mathlib

/-!
Shallow embedding of the Homerun shipping app's two reconciliation entry
points, translated from `src/pages/api/webhooks/shipping-update.ts` and
`src/pages/api/force-status.ts`.  Remote calls (Shopify REST, Postgres)
are abstracted into an environment record supplying each call's outcome;
control flow, branch conditions, retry bookkeeping and the produced
summary/log records follow the TypeScript line by line.
-/

/-- A JavaScript-ish value as stored in the settings key/value table and
copied verbatim onto the `settings` object (`settings[row.key] = row.value`). -/
inductive JVal where
  | vBool : Bool → JVal
  | vStr : String → JVal
  | vNum : Int → JVal
  | vNull : JVal
deriving DecidableEq, Repr

/-- JavaScript truthiness for the modelled values (`!settings.system_enabled`,
`settings.tagging_enabled && settings.tag_name`, ...). -/
def jTruthy : JVal → Bool
  | .vBool b => b
  | .vStr s => s != ""
  | .vNum n => n != 0
  | .vNull => false

/-- The `settings` object of the webhook handler: declared defaults, then each
settings row overwrites the field named by its key (unknown keys are stored on
the object too but never read, so they are dropped here). -/
structure SettingsObj where
  system_enabled : JVal
  tagging_enabled : JVal
  tag_name : JVal
  fulfillment_update_enabled : JVal
  fulfillment_status : JVal
deriving DecidableEq, Repr

def defaultSettings : SettingsObj :=
  { system_enabled := .vBool true
    tagging_enabled := .vBool false
    tag_name := .vStr "test-ofd"
    fulfillment_update_enabled := .vBool false
    fulfillment_status := .vStr "in_transit" }

def applyRow (s : SettingsObj) (row : String × JVal) : SettingsObj :=
  match row.1 with
  | "system_enabled" => { s with system_enabled := row.2 }
  | "tagging_enabled" => { s with tagging_enabled := row.2 }
  | "tag_name" => { s with tag_name := row.2 }
  | "fulfillment_update_enabled" => { s with fulfillment_update_enabled := row.2 }
  | "fulfillment_status" => { s with fulfillment_status := row.2 }
  | _ => s

def loadSettings (rows : List (String × JVal)) : SettingsObj :=
  rows.foldl applyRow defaultSettings

/-- A Shopify fulfillment as seen by the scan (`status` may be `null`). -/
structure Fulfillment where
  id : Nat
  status : Option String
deriving DecidableEq, Repr

structure OrderSnap where
  id : Nat
  tags : Option String
  fulfillments : List Fulfillment
deriving DecidableEq, Repr

structure FulfillmentOrder where
  id : Nat
  status : String
deriving DecidableEq, Repr

/-- shipping-update.ts line 190: the Strategy A scan predicate
`f.status === 'success' || f.status === 'open' || f.status === 'processing' || f.status === null`. -/
def webhookActionable (f : Fulfillment) : Bool :=
  f.status == some "success" || f.status == some "open" ||
    f.status == some "processing" || f.status == none

/-- force-status.ts line 91: the manual handler's Strategy A scan predicate
`f.status === 'success' || f.status === 'open' || f.status === 'processing'`. -/
def forceActionable (f : Fulfillment) : Bool :=
  f.status == some "success" || f.status == some "open" || f.status == some "processing"

/-- `fo.status === 'open' || fo.status === 'in_progress'` (both files). -/
def foOpen (fo : FulfillmentOrder) : Bool :=
  fo.status == "open" || fo.status == "in_progress"

/-- Outcome of one remote call, supplied by the environment. -/
inductive Rem (α : Type) where
  | ok : α → Rem α
  | fail : String → Rem α
deriving DecidableEq, Repr

/-- Observable actions of one webhook invocation, in order. -/
inductive WEv where
  | fetchInitial
  | refetchCall
  | refetchErr (msg : String)
  | scan (n : Nat)
  | stratAFound (fid : Nat)
  | stratAEventOk (fid : Nat)
  | stratAEventErr (fid : Nat) (msg : String)
  | stratBScan
  | foFetchErr (msg : String)
  | foFound (foid : Nat)
  | foNone
  | createV2Ok (fid : Nat)
  | createV2Err (msg : String)
  | stratBEventOk (fid : Nat)
  | stratBEventErr (fid : Nat) (msg : String)
  | wait
  | logged (level : String) (msg : String)
deriving DecidableEq, Repr

/-- Environment of a webhook invocation: the outcome each remote call would
have if issued.  Calls that can recur are keyed by the attempt number. -/
structure WebhookEnv where
  settingsRows : Rem (List (String × JVal))
  initialOrder : Rem OrderSnap
  tagUpdate : Rem Unit
  refetch : Nat → Rem OrderSnap
  fulfillmentOrders : Nat → Rem (List FulfillmentOrder)
  createV2 : Nat → Rem Fulfillment
  eventCreate : Nat → Nat → Rem Unit
  logInsertOk : Bool

inductive TagStatus where
  | skipped | tagExists | success | failed
deriving DecidableEq, Repr

structure TagSummary where
  status : TagStatus
  tagName : Option JVal
  error : Option String
deriving DecidableEq, Repr

inductive FulStatus where
  | skipped | success | failed
deriving DecidableEq, Repr

structure FulSummary where
  status : FulStatus
  retries : Nat
  targetStatus : Option JVal
  error : Option String
deriving DecidableEq, Repr

structure Resp where
  status : Nat
  message : String
deriving DecidableEq, Repr

/-- Result of one attempt of the webhook retry loop. -/
inductive ARes where
  | aSuccess | bSuccess | noSuccess
deriving DecidableEq, Repr

/-- Lines 166-174: `currentOrder = order`, re-fetched on attempts > 1, keeping
the initial snapshot when the re-fetch throws. -/
def attemptOrder (env : WebhookEnv) (initOrder : OrderSnap) (attempt : Nat) :
    List WEv × OrderSnap :=
  if attempt > 1 then
    match env.refetch attempt with
    | .ok o => ([.refetchCall], o)
    | .fail e => ([.refetchCall, .refetchErr e], initOrder)
  else ([], initOrder)

/-- Lines 194-210: Strategy A, the status-transition call against the found
legacy fulfillment; its failure is caught and only logged. -/
def stratA (env : WebhookEnv) (attempt : Nat) (f : Fulfillment) : List WEv × ARes :=
  match env.eventCreate attempt f.id with
  | .ok _ => ([.stratAFound f.id, .stratAEventOk f.id], .aSuccess)
  | .fail e => ([.stratAFound f.id, .stratAEventErr f.id e], .noSuccess)

/-- Lines 212-287: Strategy B; the whole block sits in one try/catch, except
that the follow-up status-event call (lines 262-270) has its own inner
try/catch, so its failure does not undo the attempt's success. -/
def stratB (env : WebhookEnv) (attempt : Nat) (ds : JVal) : List WEv × ARes :=
  match env.fulfillmentOrders attempt with
  | .fail e => ([.stratBScan, .foFetchErr e], .noSuccess)
  | .ok fos =>
    match fos.find? foOpen with
    | none => ([.stratBScan, .foNone], .noSuccess)
    | some fo =>
      match env.createV2 attempt with
      | .fail e => ([.stratBScan, .foFound fo.id, .createV2Err e], .noSuccess)
      | .ok nf =>
        let evTr :=
          if nf.id ≠ 0 ∧ jTruthy ds then
            match env.eventCreate attempt nf.id with
            | .ok _ => [WEv.stratBEventOk nf.id]
            | .fail e => [WEv.stratBEventErr nf.id e]
          else []
        ([.stratBScan, .foFound fo.id, .createV2Ok nf.id] ++ evTr, .bSuccess)

/-- One iteration of the `for (attempt = 1; attempt <= 3; ...)` body up to the
strategy outcome (lines 162-287). -/
def attemptStep (env : WebhookEnv) (initOrder : OrderSnap) (ds : JVal)
    (attempt : Nat) : List WEv × ARes :=
  let fo := attemptOrder env initOrder attempt
  let scanTr := [WEv.scan fo.2.fulfillments.length]
  match fo.2.fulfillments.find? webhookActionable with
  | some f =>
    let r := stratA env attempt f
    (fo.1 ++ scanTr ++ r.1, r.2)
  | none =>
    let r := stratB env attempt ds
    (fo.1 ++ scanTr ++ r.1, r.2)

def successMsgA (oid : Nat) : String := s!"Processed Order {oid}"
def successMsgB (oid : Nat) : String := s!"Processed Order {oid} (via FulfillmentOrder)"
def warnMsg : String := "Fulfillment update skipped - no open fulfillment found after retries"
def failErrMsg : String := "No open fulfillment found after 3 retries"

/-- The retry loop of lines 162-304 plus its post-loop failure handling.
`remaining` is the fuel `4 - attempt`; the top-level call is with `3 1`.
Returns the trace, the fulfillment summary and the attempted DB log records. -/
def fulLoopAux (env : WebhookEnv) (initOrder : OrderSnap) (ds : JVal) (oid : Nat) :
    Nat → Nat → List WEv × FulSummary × List (String × String)
  | 0, _ =>
    ([], { status := .failed, retries := 3, targetStatus := some ds,
           error := some failErrMsg }, [("WARNING", warnMsg)])
  | remaining + 1, attempt =>
    let st := attemptStep env initOrder ds attempt
    match st.2 with
    | .aSuccess =>
      (st.1 ++ [.logged "SUCCESS" (successMsgA oid)],
       { status := .success, retries := attempt - 1, targetStatus := some ds,
         error := none },
       [("SUCCESS", successMsgA oid)])
    | .bSuccess =>
      (st.1 ++ [.logged "SUCCESS" (successMsgB oid)],
       { status := .success, retries := attempt - 1, targetStatus := some ds,
         error := none },
       [("SUCCESS", successMsgB oid)])
    | .noSuccess =>
      if attempt < 3 then
        let rest := fulLoopAux env initOrder ds oid remaining (attempt + 1)
        (st.1 ++ [WEv.wait] ++ rest.1, rest.2.1, rest.2.2)
      else
        (st.1 ++ [.logged "WARNING" warnMsg],
         { status := .failed, retries := 3, targetStatus := some ds,
           error := some failErrMsg },
         [("WARNING", warnMsg)])

/-- Lines 155-310: the fulfillment-update section, guarded by
`settings.fulfillment_update_enabled && settings.fulfillment_status`. -/
def fulfillmentSection (env : WebhookEnv) (s : SettingsObj) (oid : Nat)
    (initOrder : OrderSnap) : List WEv × FulSummary × List (String × String) :=
  if jTruthy s.fulfillment_update_enabled && jTruthy s.fulfillment_status then
    fulLoopAux env initOrder s.fulfillment_status oid 3 1
  else
    ([], { status := .skipped, retries := 0, targetStatus := none, error := none },
     [("SUCCESS", successMsgA oid)])

/-- Lines 129: `order.tags ? order.tags.split(',').map(t => t.trim()) : []`. -/
def currentTags (tags : Option String) : List String :=
  match tags with
  | some t => if t == "" then [] else (t.splitOn ",").map String.trim
  | none => []

/-- `currentTags.includes(specificTag)` — a strict-equality membership test, so
a non-string settings value never matches a string tag. -/
def tagIncluded (tagName : JVal) (tags : Option String) : Bool :=
  match tagName with
  | .vStr t => (currentTags tags).contains t
  | _ => false

/-- Lines 127-152: the tagging section, guarded by
`settings.tagging_enabled && settings.tag_name`; a tag-update failure is
caught in place and only recorded on the summary. -/
def tagSection (env : WebhookEnv) (s : SettingsObj) (ord : OrderSnap) : TagSummary :=
  if jTruthy s.tagging_enabled && jTruthy s.tag_name then
    if tagIncluded s.tag_name ord.tags then
      { status := .tagExists, tagName := some s.tag_name, error := none }
    else
      match env.tagUpdate with
      | .ok _ => { status := .success, tagName := some s.tag_name, error := none }
      | .fail e => { status := .failed, tagName := some s.tag_name, error := some e }
  else
    { status := .skipped, tagName := none, error := none }

/-- The webhook request body, reduced to the fields the handler reads:
`body.id` and `body.data.order.id` (JS numbers, so `0` is falsy). -/
structure WBody where
  id : Option Nat
  nestedOrderId : Option Nat
deriving DecidableEq, Repr

/-- Lines 104-117: `orderId = body.id`, falling back to the nested id; both
checks are truthiness checks, so an id of `0` does not count. -/
def extractOrderId (b : WBody) : Option Nat :=
  let oid : Option Nat :=
    match b.id with
    | some n => if n == 0 then none else some n
    | none => none
  match oid with
  | some n => some n
  | none =>
    match b.nestedOrderId with
    | some n => if n == 0 then none else some n
    | none => none

structure WOut where
  resp : Resp
  tagSum : Option TagSummary
  fulSum : Option FulSummary
  trace : List WEv
  dbRecords : List (String × String)
deriving DecidableEq, Repr

def initialTagSummary : TagSummary := { status := .skipped, tagName := none, error := none }
def initialFulSummary : FulSummary :=
  { status := .skipped, retries := 0, targetStatus := none, error := none }

/-- The POST path of `shipping-update.ts`'s handler.  Settings-load failure
falls back to the defaults; the `system_enabled` gate returns the neutral
200; a failing initial order fetch lands in the `opError` catch (ERROR log,
500); every `logEvent` insert failure is swallowed, so `logInsertOk` only
decides whether records reach `dbRecords`. -/
def webhookHandler (env : WebhookEnv) (body : WBody) : WOut :=
  let settings :=
    match env.settingsRows with
    | .ok rows => loadSettings rows
    | .fail _ => defaultSettings
  if ¬ jTruthy settings.system_enabled then
    { resp := ⟨200, "System disabled"⟩, tagSum := none, fulSum := none,
      trace := [], dbRecords := [] }
  else
    match extractOrderId body with
    | none =>
      { resp := ⟨400, "No Order ID found"⟩,
        tagSum := some initialTagSummary, fulSum := some initialFulSummary,
        trace := [],
        dbRecords := if env.logInsertOk then [("ERROR", "No Order ID found")] else [] }
    | some oid =>
      match env.initialOrder with
      | .fail e =>
        { resp := ⟨500, "Error processing order"⟩,
          tagSum := some initialTagSummary, fulSum := some initialFulSummary,
          trace := [.fetchInitial],
          dbRecords :=
            if env.logInsertOk then [("ERROR", s!"Operation failed: {e}")] else [] }
      | .ok ord =>
        let tagS := tagSection env settings ord
        let ful := fulfillmentSection env settings oid ord
        { resp := ⟨200, "Success"⟩, tagSum := some tagS, fulSum := some ful.2.1,
          trace := WEv.fetchInitial :: ful.1,
          dbRecords := if env.logInsertOk then ful.2.2 else [] }

/-! ### Manual override entry point (`force-status.ts`) -/

/-- Request body of the manual override, restricted to numeric order ids
(the non-numeric branch searches by order name and is not needed here);
`!orderId || !status` are truthiness checks. -/
structure FBody where
  orderId : Option Nat
  status : Option String
  trackingNumber : Option String
  trackingCompany : Option String
deriving DecidableEq, Repr

def fbodyParams (b : FBody) : Option (Nat × String) :=
  match b.orderId, b.status with
  | some oid, some st =>
    if oid == 0 then none else if st == "" then none else some (oid, st)
  | _, _ => none

/-- Environment of one manual-override invocation. -/
structure ForceEnv where
  orderFetch : Rem OrderSnap
  fos : Rem (List FulfillmentOrder)
  markRequest : Rem Unit
  reopen : Nat → Rem Unit
  eventCreate : Nat → Rem Unit
  createV2 : Rem Fulfillment
  sqlInsert : Rem Unit

/-- Observable actions of one manual-override invocation. -/
inductive FEv where
  | fetchOrder
  | fosCall
  | markCall (endpoint : String)
  | reopenCall (fid : Nat)
  | eventCall (fid : Nat)
  | createV2Call
  | settleWait
  | insertCall
deriving DecidableEq, Repr

/-- `force-status.ts`'s handler (POST path, numeric order id).  Only the
order fetch (404 catch) and the two re-open calls have local try/catch;
every other remote failure — including the `webhook_logs` INSERTs of lines
79-82 and 161-170 — propagates to the outer catch, which answers 500 with
the error message. -/
def forceHandler (env : ForceEnv) (b : FBody) : Resp × List FEv :=
  match fbodyParams b with
  | none => (⟨400, "Missing orderId or status"⟩, [])
  | some p =>
    let oid := p.1
    let ds := p.2
    match env.orderFetch with
    | .fail e => (⟨404, s!"Order {oid} not found: {e}"⟩, [.fetchOrder])
    | .ok ord =>
      if ds == "ready_for_delivery" || ds == "out_for_delivery" || ds == "in_transit" then
        -- Strategy 0 (blue badge), lines 60-88
        match env.fos with
        | .fail e => (⟨500, e⟩, [.fetchOrder, .fosCall])
        | .ok fos =>
          match fos.find? foOpen with
          | none =>
            (⟨400, "No OPEN fulfillment order found."⟩, [.fetchOrder, .fosCall])
          | some _ =>
            let endpoint :=
              if ds == "out_for_delivery" then "mark_as_out_for_delivery"
              else "mark_as_ready_for_delivery"
            match env.markRequest with
            | .fail e => (⟨500, e⟩, [.fetchOrder, .fosCall, .markCall endpoint])
            | .ok _ =>
              match env.sqlInsert with
              | .fail e =>
                (⟨500, e⟩, [.fetchOrder, .fosCall, .markCall endpoint, .insertCall])
              | .ok _ =>
                (⟨200, s!"Marked as {ds} (Blue Badge)"⟩,
                 [.fetchOrder, .fosCall, .markCall endpoint, .insertCall])
      else
        match ord.fulfillments.find? forceActionable with
        | some f =>
          -- Strategy A, lines 95-111; the re-open try/catch swallows failure
          let reopenTr :=
            if f.status == some "success" &&
                (ds == "in_transit" || ds == "out_for_delivery") then
              [FEv.reopenCall f.id]
            else []
          match env.eventCreate f.id with
          | .fail e => (⟨500, e⟩, [FEv.fetchOrder] ++ reopenTr ++ [.eventCall f.id])
          | .ok _ =>
            match env.sqlInsert with
            | .fail e =>
              (⟨500, e⟩, [FEv.fetchOrder] ++ reopenTr ++ [.eventCall f.id, .insertCall])
            | .ok _ =>
              (⟨200, "Status updated successfully"⟩,
               [FEv.fetchOrder] ++ reopenTr ++ [.eventCall f.id, .insertCall])
        | none =>
          -- Strategy B, lines 113-152
          match env.fos with
          | .fail e => (⟨500, e⟩, [.fetchOrder, .fosCall])
          | .ok fos =>
            match fos.find? foOpen with
            | none => (⟨400, "No open fulfillment orders found"⟩, [.fetchOrder, .fosCall])
            | some _ =>
              match env.createV2 with
              | .fail e => (⟨500, e⟩, [.fetchOrder, .fosCall, .createV2Call])
              | .ok nf =>
                let reopenTr :=
                  if nf.status == some "success" &&
                      (ds == "in_transit" || ds == "out_for_delivery") then
                    [FEv.reopenCall nf.id]
                  else []
                match env.eventCreate nf.id with
                | .fail e =>
                  (⟨500, e⟩,
                   [FEv.fetchOrder, .fosCall, .createV2Call] ++ reopenTr ++
                     [.settleWait, .eventCall nf.id])
                | .ok _ =>
                  match env.sqlInsert with
                  | .fail e =>
                    (⟨500, e⟩,
                     [FEv.fetchOrder, .fosCall, .createV2Call] ++ reopenTr ++
                       [.settleWait, .eventCall nf.id, .insertCall])
                  | .ok _ =>
                    (⟨200, "Status updated successfully"⟩,
                     [FEv.fetchOrder, .fosCall, .createV2Call] ++ reopenTr ++
                       [.settleWait, .eventCall nf.id, .insertCall])

/-! ### Trace observations -/

/-- An order fetch cycle: the initial `shopify.order.get` or a re-fetch. -/
def isFetchEv : WEv → Bool
  | .fetchInitial => true
  | .refetchCall => true
  | _ => false

def countFetch (tr : List WEv) : Nat := tr.countP isFetchEv

def countWait (tr : List WEv) : Nat := tr.countP (· == WEv.wait)

/-! ### Helper lemmas about one attempt of the webhook loop -/

theorem countFetch_append (l₁ l₂ : List WEv) :
    countFetch (l₁ ++ l₂) = countFetch l₁ + countFetch l₂ := by
  simp [countFetch, List.countP_append]

theorem countFetch_cons (e : WEv) (l : List WEv) :
    countFetch (e :: l) = countFetch l + if isFetchEv e then 1 else 0 := by
  simp [countFetch, List.countP_cons]

theorem countWait_append (l₁ l₂ : List WEv) :
    countWait (l₁ ++ l₂) = countWait l₁ + countWait l₂ := by
  simp [countWait, List.countP_append]

theorem countWait_cons (e : WEv) (l : List WEv) :
    countWait (e :: l) = countWait l + if e == WEv.wait then 1 else 0 := by
  simp [countWait, List.countP_cons]

theorem countFetch_stratA (env : WebhookEnv) (a : Nat) (f : Fulfillment) :
    countFetch (stratA env a f).1 = 0 := by
  unfold stratA; split <;> rfl

theorem countFetch_stratB (env : WebhookEnv) (a : Nat) (ds : JVal) :
    countFetch (stratB env a ds).1 = 0 := by
  unfold stratB
  repeat' split
  all_goals rfl

theorem countWait_stratA (env : WebhookEnv) (a : Nat) (f : Fulfillment) :
    countWait (stratA env a f).1 = 0 := by
  unfold stratA; split <;> rfl

theorem countWait_stratB (env : WebhookEnv) (a : Nat) (ds : JVal) :
    countWait (stratB env a ds).1 = 0 := by
  unfold stratB
  repeat' split
  all_goals rfl

theorem countFetch_attemptOrder (env : WebhookEnv) (o : OrderSnap) (a : Nat) :
    countFetch (attemptOrder env o a).1 = if a > 1 then 1 else 0 := by
  unfold attemptOrder
  by_cases h : a > 1
  · simp only [if_pos h]
    split <;> rfl
  · simp only [if_neg h]
    rfl

theorem countWait_attemptOrder (env : WebhookEnv) (o : OrderSnap) (a : Nat) :
    countWait (attemptOrder env o a).1 = 0 := by
  unfold attemptOrder
  by_cases h : a > 1
  · simp only [if_pos h]
    split <;> rfl
  · simp only [if_neg h]
    rfl

theorem countFetch_attemptStep (env : WebhookEnv) (o : OrderSnap) (ds : JVal) (a : Nat) :
    countFetch (attemptStep env o ds a).1 = if a > 1 then 1 else 0 := by
  unfold attemptStep
  dsimp only
  rw [← countFetch_attemptOrder env o a]
  split <;>
    simp [countFetch_append, countFetch_cons, countFetch_stratA, countFetch_stratB, isFetchEv]

theorem countWait_attemptStep (env : WebhookEnv) (o : OrderSnap) (ds : JVal) (a : Nat) :
    countWait (attemptStep env o ds a).1 = 0 := by
  unfold attemptStep
  dsimp only
  split <;>
    simp [countWait_append, countWait_cons, countWait_stratA, countWait_stratB,
      countWait_attemptOrder]

theorem wait_not_mem_attemptStep (env : WebhookEnv) (o : OrderSnap) (ds : JVal) (a : Nat) :
    WEv.wait ∉ (attemptStep env o ds a).1 := by
  intro hmem
  have h0 := countWait_attemptStep env o ds a
  rw [countWait, List.countP_eq_zero] at h0
  exact absurd (by simp) (h0 _ hmem)

theorem stratBScan_not_mem_attemptOrder (env : WebhookEnv) (o : OrderSnap) (a : Nat) :
    WEv.stratBScan ∉ (attemptOrder env o a).1 := by
  unfold attemptOrder
  by_cases h : a > 1
  · simp only [if_pos h]
    split <;> simp
  · simp only [if_neg h]
    simp

/-! ### Unfolding lemmas for the retry loop -/

theorem fulLoopAux_step_noSuccess (env : WebhookEnv) (ord : OrderSnap) (ds : JVal)
    (oid rem att : Nat)
    (h : (attemptStep env ord ds att).2 = .noSuccess) (hlt : att < 3) :
    fulLoopAux env ord ds oid (rem + 1) att =
      ((attemptStep env ord ds att).1 ++ WEv.wait ::
          (fulLoopAux env ord ds oid rem (att + 1)).1,
       (fulLoopAux env ord ds oid rem (att + 1)).2.1,
       (fulLoopAux env ord ds oid rem (att + 1)).2.2) := by
  conv_lhs => unfold fulLoopAux
  dsimp only
  rw [h]
  simp [hlt]

theorem fulLoopAux_last_noSuccess (env : WebhookEnv) (ord : OrderSnap) (ds : JVal)
    (oid rem : Nat)
    (h : (attemptStep env ord ds 3).2 = .noSuccess) :
    fulLoopAux env ord ds oid (rem + 1) 3 =
      ((attemptStep env ord ds 3).1 ++ [.logged "WARNING" warnMsg],
       { status := .failed, retries := 3, targetStatus := some ds,
         error := some failErrMsg },
       [("WARNING", warnMsg)]) := by
  conv_lhs => unfold fulLoopAux
  dsimp only
  rw [h]
  simp

theorem fulLoopAux_aSuccess (env : WebhookEnv) (ord : OrderSnap) (ds : JVal)
    (oid rem att : Nat)
    (h : (attemptStep env ord ds att).2 = .aSuccess) :
    fulLoopAux env ord ds oid (rem + 1) att =
      ((attemptStep env ord ds att).1 ++ [.logged "SUCCESS" (successMsgA oid)],
       { status := .success, retries := att - 1, targetStatus := some ds, error := none },
       [("SUCCESS", successMsgA oid)]) := by
  conv_lhs => unfold fulLoopAux
  dsimp only
  rw [h]

theorem fulLoopAux_bSuccess (env : WebhookEnv) (ord : OrderSnap) (ds : JVal)
    (oid rem att : Nat)
    (h : (attemptStep env ord ds att).2 = .bSuccess) :
    fulLoopAux env ord ds oid (rem + 1) att =
      ((attemptStep env ord ds att).1 ++ [.logged "SUCCESS" (successMsgB oid)],
       { status := .success, retries := att - 1, targetStatus := some ds, error := none },
       [("SUCCESS", successMsgB oid)]) := by
  conv_lhs => unfold fulLoopAux
  dsimp only
  rw [h]

theorem fulfillmentSection_enabled (env : WebhookEnv) (s : SettingsObj)
    (oid : Nat) (ord : OrderSnap)
    (hen : jTruthy s.fulfillment_update_enabled = true)
    (hst : jTruthy s.fulfillment_status = true) :
    fulfillmentSection env s oid ord = fulLoopAux env ord s.fulfillment_status oid 3 1 := by
  simp [fulfillmentSection, hen, hst]

/-- Reduction of the webhook handler to its sections once the gate passes,
the order id resolves and the initial fetch succeeds. -/
theorem webhookHandler_run (env : WebhookEnv) (body : WBody)
    (rows : List (String × JVal)) (oid : Nat) (ord : OrderSnap)
    (hrows : env.settingsRows = .ok rows)
    (hen : jTruthy (loadSettings rows).system_enabled = true)
    (hid : extractOrderId body = some oid)
    (hord : env.initialOrder = .ok ord) :
    webhookHandler env body =
      { resp := ⟨200, "Success"⟩,
        tagSum := some (tagSection env (loadSettings rows) ord),
        fulSum := some (fulfillmentSection env (loadSettings rows) oid ord).2.1,
        trace := WEv.fetchInitial :: (fulfillmentSection env (loadSettings rows) oid ord).1,
        dbRecords :=
          if env.logInsertOk then (fulfillmentSection env (loadSettings rows) oid ord).2.2
          else [] } := by
  unfold webhookHandler
  rw [hrows]
  dsimp only
  rw [hen, hid, hord]
  simp

/-! ### C1 -/

theorem countFetch_logged (l m : String) : countFetch [WEv.logged l m] = 0 := rfl

theorem countWait_logged (l m : String) : countWait [WEv.logged l m] = 0 := rfl

theorem isFetchEv_wait : isFetchEv WEv.wait = false := rfl

theorem isFetchEv_logged (l m : String) : isFetchEv (WEv.logged l m) = false := rfl

theorem countFetch_nil : countFetch [] = 0 := rfl

theorem countWait_nil : countWait [] = 0 := rfl

theorem isFetchEv_fetchInitial : isFetchEv WEv.fetchInitial = true := rfl

theorem beq_wait_wait : (WEv.wait == WEv.wait) = true := rfl

theorem beq_fetchInitial_wait : (WEv.fetchInitial == WEv.wait) = false := rfl

theorem attemptOrder_find_none (env : WebhookEnv) (ord : OrderSnap) (a : Nat)
    (h1 : ord.fulfillments.find? webhookActionable = none)
    (h2 : ∀ o, env.refetch a = .ok o → o.fulfillments.find? webhookActionable = none) :
    ((attemptOrder env ord a).2).fulfillments.find? webhookActionable = none := by
  unfold attemptOrder
  by_cases hgt : a > 1
  · simp only [if_pos hgt]
    cases hre : env.refetch a with
    | ok o => simpa using h2 o hre
    | fail e => simpa using h1
  · simpa [if_neg hgt] using h1

theorem stratB_noSuccess (env : WebhookEnv) (a : Nat) (ds : JVal)
    (h3 : ∀ l, env.fulfillmentOrders a = .ok l → l.find? foOpen = none) :
    (stratB env a ds).2 = .noSuccess := by
  unfold stratB
  cases hfo : env.fulfillmentOrders a with
  | fail e => rfl
  | ok l =>
    dsimp only
    rw [h3 l hfo]

theorem attemptStep_noSuccess (env : WebhookEnv) (ord : OrderSnap) (ds : JVal) (a : Nat)
    (hfind : ((attemptOrder env ord a).2).fulfillments.find? webhookActionable = none)
    (h3 : ∀ l, env.fulfillmentOrders a = .ok l → l.find? foOpen = none) :
    (attemptStep env ord ds a).2 = .noSuccess := by
  unfold attemptStep
  dsimp only
  rw [hfind]
  exact stratB_noSuccess env a ds h3

/-- C1: with `maxAttempts = 3`, when no attempt sees an actionable fulfillment
and no fulfillment-order is open or in progress, the webhook reconciler runs
exactly 3 fetch cycles (the initial fetch plus re-fetches on attempts 2 and 3),
waits only between attempts, and ends with fulfillment outcome `failed`,
`retries = 3` and an error message, logged as a WARNING record while the
invocation still answers 200 Success. -/
theorem C1_exhausted_retries (env : WebhookEnv) (body : WBody)
    (rows : List (String × JVal)) (oid : Nat) (ord : OrderSnap)
    (hrows : env.settingsRows = .ok rows)
    (hen : jTruthy (loadSettings rows).system_enabled = true)
    (hful : jTruthy (loadSettings rows).fulfillment_update_enabled = true)
    (hds : jTruthy (loadSettings rows).fulfillment_status = true)
    (hid : extractOrderId body = some oid)
    (hord : env.initialOrder = .ok ord)
    (h1 : ord.fulfillments.find? webhookActionable = none)
    (h2 : ∀ a o, env.refetch a = .ok o → o.fulfillments.find? webhookActionable = none)
    (h3 : ∀ a l, env.fulfillmentOrders a = .ok l → l.find? foOpen = none)
    (hlog : env.logInsertOk = true) :
    countFetch (webhookHandler env body).trace = 3 ∧
    countWait (webhookHandler env body).trace = 2 ∧
    (webhookHandler env body).trace =
      WEv.fetchInitial ::
        ((attemptStep env ord (loadSettings rows).fulfillment_status 1).1 ++
          WEv.wait ::
            ((attemptStep env ord (loadSettings rows).fulfillment_status 2).1 ++
              WEv.wait ::
                ((attemptStep env ord (loadSettings rows).fulfillment_status 3).1 ++
                  [WEv.logged "WARNING" warnMsg]))) ∧
    (∀ a, WEv.wait ∉ (attemptStep env ord (loadSettings rows).fulfillment_status a).1) ∧
    (webhookHandler env body).fulSum =
      some { status := .failed, retries := 3,
             targetStatus := some (loadSettings rows).fulfillment_status,
             error := some failErrMsg } ∧
    (webhookHandler env body).dbRecords = [("WARNING", warnMsg)] ∧
    (webhookHandler env body).resp = ⟨200, "Success"⟩ := by
  have hrun := webhookHandler_run env body rows oid ord hrows hen hid hord
  have hsec := fulfillmentSection_enabled env (loadSettings rows) oid ord hful hds
  have hnos : ∀ a, (attemptStep env ord (loadSettings rows).fulfillment_status a).2 =
      .noSuccess := fun a =>
    attemptStep_noSuccess env ord _ a
      (attemptOrder_find_none env ord a h1 (h2 a)) (h3 a)
  have e3 : fulLoopAux env ord (loadSettings rows).fulfillment_status oid 1 3 =
      ((attemptStep env ord (loadSettings rows).fulfillment_status 3).1 ++
        [WEv.logged "WARNING" warnMsg],
       { status := .failed, retries := 3,
         targetStatus := some (loadSettings rows).fulfillment_status,
         error := some failErrMsg },
       [("WARNING", warnMsg)]) :=
    fulLoopAux_last_noSuccess env ord _ oid 0 (hnos 3)
  have e2 : fulLoopAux env ord (loadSettings rows).fulfillment_status oid 2 2 =
      ((attemptStep env ord (loadSettings rows).fulfillment_status 2).1 ++
        WEv.wait :: (fulLoopAux env ord (loadSettings rows).fulfillment_status oid 1 3).1,
       (fulLoopAux env ord (loadSettings rows).fulfillment_status oid 1 3).2.1,
       (fulLoopAux env ord (loadSettings rows).fulfillment_status oid 1 3).2.2) :=
    fulLoopAux_step_noSuccess env ord _ oid 1 2 (hnos 2) (by decide)
  have e1 : fulLoopAux env ord (loadSettings rows).fulfillment_status oid 3 1 =
      ((attemptStep env ord (loadSettings rows).fulfillment_status 1).1 ++
        WEv.wait :: (fulLoopAux env ord (loadSettings rows).fulfillment_status oid 2 2).1,
       (fulLoopAux env ord (loadSettings rows).fulfillment_status oid 2 2).2.1,
       (fulLoopAux env ord (loadSettings rows).fulfillment_status oid 2 2).2.2) :=
    fulLoopAux_step_noSuccess env ord _ oid 2 1 (hnos 1) (by decide)
  rw [e3] at e2
  dsimp only at e2
  rw [e2] at e1
  dsimp only at e1
  have cf1 := countFetch_attemptStep env ord (loadSettings rows).fulfillment_status 1
  have cf2 := countFetch_attemptStep env ord (loadSettings rows).fulfillment_status 2
  have cf3 := countFetch_attemptStep env ord (loadSettings rows).fulfillment_status 3
  norm_num at cf1 cf2 cf3
  have cw1 := countWait_attemptStep env ord (loadSettings rows).fulfillment_status 1
  have cw2 := countWait_attemptStep env ord (loadSettings rows).fulfillment_status 2
  have cw3 := countWait_attemptStep env ord (loadSettings rows).fulfillment_status 3
  rw [hrun]
  dsimp only
  rw [hsec, e1, hlog]
  refine ⟨?_, ?_, rfl, fun a => wait_not_mem_attemptStep env ord _ a, rfl, by simp, rfl⟩
  · simp only [countFetch_cons, countFetch_append, cf1, cf2, cf3, countFetch_logged,
      isFetchEv_wait, isFetchEv_fetchInitial, isFetchEv_logged, countFetch_nil]
    norm_num
  · simp only [countWait_cons, countWait_append, cw1, cw2, cw3, countWait_logged,
      beq_wait_wait, beq_fetchInitial_wait, countWait_nil]
    simp

def w1ord : OrderSnap := { id := 123, tags := none, fulfillments := [] }

def w1rows : List (String × JVal) := [("fulfillment_update_enabled", JVal.vBool true)]

def w1env : WebhookEnv :=
  { settingsRows := .ok w1rows
    initialOrder := .ok w1ord
    tagUpdate := .ok ()
    refetch := fun _ => .ok w1ord
    fulfillmentOrders := fun _ => .ok []
    createV2 := fun _ => .fail "unused"
    eventCreate := fun _ _ => .fail "unused"
    logInsertOk := true }

def w1body : WBody := { id := some 123, nestedOrderId := none }

/-- Witness for C1 at a concrete order with no fulfillments and no
fulfillment orders on any attempt. -/
theorem C1_exhausted_retries_witness :
    countFetch (webhookHandler w1env w1body).trace = 3 ∧
    countWait (webhookHandler w1env w1body).trace = 2 ∧
    (webhookHandler w1env w1body).fulSum =
      some { status := .failed, retries := 3,
             targetStatus := some (JVal.vStr "in_transit"),
             error := some failErrMsg } ∧
    (webhookHandler w1env w1body).dbRecords = [("WARNING", warnMsg)] ∧
    (webhookHandler w1env w1body).resp = ⟨200, "Success"⟩ := by
  have h := C1_exhausted_retries w1env w1body w1rows 123 w1ord rfl (by decide)
    (by decide) (by decide) rfl rfl rfl
    (by intro a o hre; injection hre with h2; subst h2; rfl)
    (by intro a l hfo; injection hfo with h2; subst h2; rfl)
    rfl
  exact ⟨h.1, h.2.1, h.2.2.2.2.1, h.2.2.2.2.2.1, h.2.2.2.2.2.2⟩

/-! ### C9 -/

theorem attemptStep_one_aSuccess (env : WebhookEnv) (ord : OrderSnap) (ds : JVal)
    (f : Fulfillment)
    (hfind : ord.fulfillments.find? webhookActionable = some f)
    (hev : env.eventCreate 1 f.id = .ok ()) :
    attemptStep env ord ds 1 =
      ([.scan ord.fulfillments.length, .stratAFound f.id, .stratAEventOk f.id],
       .aSuccess) := by
  unfold attemptStep attemptOrder
  dsimp only
  rw [if_neg (by decide)]
  dsimp only
  rw [hfind]
  dsimp only
  unfold stratA
  rw [hev]
  rfl

/-- C9: if the initial order snapshot already contains an actionable
fulfillment and the status-transition call against it succeeds, the webhook
reconciler performs exactly one fetch cycle, never waits, and reports
fulfillment outcome `success` with `retries = 0`. -/
theorem C9_early_success (env : WebhookEnv) (body : WBody)
    (rows : List (String × JVal)) (oid : Nat) (ord : OrderSnap) (f : Fulfillment)
    (hrows : env.settingsRows = .ok rows)
    (hen : jTruthy (loadSettings rows).system_enabled = true)
    (hful : jTruthy (loadSettings rows).fulfillment_update_enabled = true)
    (hds : jTruthy (loadSettings rows).fulfillment_status = true)
    (hid : extractOrderId body = some oid)
    (hord : env.initialOrder = .ok ord)
    (hfind : ord.fulfillments.find? webhookActionable = some f)
    (hev : env.eventCreate 1 f.id = .ok ()) :
    countFetch (webhookHandler env body).trace = 1 ∧
    countWait (webhookHandler env body).trace = 0 ∧
    (webhookHandler env body).trace =
      [WEv.fetchInitial, .scan ord.fulfillments.length, .stratAFound f.id,
       .stratAEventOk f.id, .logged "SUCCESS" (successMsgA oid)] ∧
    (webhookHandler env body).fulSum =
      some { status := .success, retries := 0,
             targetStatus := some (loadSettings rows).fulfillment_status,
             error := none } ∧
    (webhookHandler env body).resp = ⟨200, "Success"⟩ := by
  have hrun := webhookHandler_run env body rows oid ord hrows hen hid hord
  have hsec := fulfillmentSection_enabled env (loadSettings rows) oid ord hful hds
  have hstep := attemptStep_one_aSuccess env ord (loadSettings rows).fulfillment_status f
    hfind hev
  have hsucc : (attemptStep env ord (loadSettings rows).fulfillment_status 1).2 =
      .aSuccess := by rw [hstep]
  have e1 : fulLoopAux env ord (loadSettings rows).fulfillment_status oid 3 1 =
      ((attemptStep env ord (loadSettings rows).fulfillment_status 1).1 ++
        [.logged "SUCCESS" (successMsgA oid)],
       { status := .success, retries := 0,
         targetStatus := some (loadSettings rows).fulfillment_status, error := none },
       [("SUCCESS", successMsgA oid)]) :=
    fulLoopAux_aSuccess env ord _ oid 2 1 hsucc
  rw [hstep] at e1
  rw [hrun]
  dsimp only
  rw [hsec, e1]
  refine ⟨rfl, rfl, rfl, rfl, rfl⟩

def w9ord : OrderSnap := { id := 55, tags := none, fulfillments := [⟨5, some "open"⟩] }

def w9env : WebhookEnv :=
  { settingsRows := .ok w1rows
    initialOrder := .ok w9ord
    tagUpdate := .ok ()
    refetch := fun _ => .ok w9ord
    fulfillmentOrders := fun _ => .ok []
    createV2 := fun _ => .fail "unused"
    eventCreate := fun _ _ => .ok ()
    logInsertOk := true }

def w9body : WBody := { id := some 55, nestedOrderId := none }

/-- Witness for C9 at an order whose first fulfillment has status `open`. -/
theorem C9_early_success_witness :
    countFetch (webhookHandler w9env w9body).trace = 1 ∧
    countWait (webhookHandler w9env w9body).trace = 0 ∧
    (webhookHandler w9env w9body).fulSum =
      some { status := .success, retries := 0,
             targetStatus := some (JVal.vStr "in_transit"), error := none } ∧
    (webhookHandler w9env w9body).resp = ⟨200, "Success"⟩ := by
  have h := C9_early_success w9env w9body w1rows 55 w9ord ⟨5, some "open"⟩ rfl
    (by decide) (by decide) (by decide) rfl rfl (by decide) rfl
  exact ⟨h.1, h.2.1, h.2.2.2.1, h.2.2.2.2⟩

/-! ### C2 -/

/-- C2 (amended): when Strategy A finds an actionable fulfillment and the
status-transition call against it fails, the error is recorded in the trace
but Strategy B is NOT invoked within that attempt: the fulfillment-order
scan never appears in the attempt's trace and the attempt ends unsuccessful,
falling through to the wait/retry step. -/
theorem C2_stratA_failure_skips_stratB (env : WebhookEnv) (ord : OrderSnap)
    (ds : JVal) (a : Nat) (f : Fulfillment) (e : String)
    (hfind : ((attemptOrder env ord a).2).fulfillments.find? webhookActionable = some f)
    (hev : env.eventCreate a f.id = .fail e) :
    attemptStep env ord ds a =
      ((attemptOrder env ord a).1 ++
        [WEv.scan (attemptOrder env ord a).2.fulfillments.length,
         WEv.stratAFound f.id, WEv.stratAEventErr f.id e], .noSuccess) ∧
    WEv.stratAEventErr f.id e ∈ (attemptStep env ord ds a).1 ∧
    WEv.stratBScan ∉ (attemptStep env ord ds a).1 := by
  have h : attemptStep env ord ds a =
      ((attemptOrder env ord a).1 ++
        [WEv.scan (attemptOrder env ord a).2.fulfillments.length,
         WEv.stratAFound f.id, WEv.stratAEventErr f.id e], .noSuccess) := by
    unfold attemptStep
    dsimp only
    rw [hfind]
    dsimp only
    unfold stratA
    rw [hev]
    dsimp only
    rw [List.append_assoc]
    rfl
  refine ⟨h, ?_, ?_⟩
  · rw [h]
    simp
  · rw [h]
    dsimp only
    rw [List.mem_append]
    push_neg
    refine ⟨stratBScan_not_mem_attemptOrder env ord a, by simp⟩

def w2ord : OrderSnap := { id := 77, tags := none, fulfillments := [⟨5, some "open"⟩] }

def w2env : WebhookEnv :=
  { settingsRows := .ok w1rows
    initialOrder := .ok w2ord
    tagUpdate := .ok ()
    refetch := fun _ => .ok w2ord
    fulfillmentOrders := fun _ => .ok []
    createV2 := fun _ => .fail "unused"
    eventCreate := fun _ _ => .fail "boom"
    logInsertOk := true }

/-- Witness for the amended C2 at attempt 1 on a concrete order. -/
theorem C2_stratA_failure_skips_stratB_witness :
    attemptStep w2env w2ord (JVal.vStr "in_transit") 1 =
      ([WEv.scan 1, WEv.stratAFound 5, WEv.stratAEventErr 5 "boom"], .noSuccess) ∧
    WEv.stratAEventErr 5 "boom" ∈ (attemptStep w2env w2ord (JVal.vStr "in_transit") 1).1 ∧
    WEv.stratBScan ∉ (attemptStep w2env w2ord (JVal.vStr "in_transit") 1).1 := by
  have h := C2_stratA_failure_skips_stratB w2env w2ord (JVal.vStr "in_transit") 1
    ⟨5, some "open"⟩ "boom" (by decide) rfl
  exact h

def w2body : WBody := { id := some 77, nestedOrderId := none }

/-- Counterexample to C2 as stated: on a run where Strategy A keeps finding
the actionable fulfillment and its status-transition call keeps failing, the
full webhook trace records the Strategy A error yet contains no Strategy B
scan at all — Strategy B is not reached in the same attempt (nor ever). -/
theorem C2_counterexample :
    WEv.stratAEventErr 5 "boom" ∈ (webhookHandler w2env w2body).trace ∧
    WEv.stratBScan ∉ (webhookHandler w2env w2body).trace := by decide

/-! ### C3 -/

/-- C3 (amended): in webhook Strategy B, the attempt outcome is decided by the
creation call alone: if `createV2` succeeds the attempt is a success with
`retries = n-1` and the loop stops, even when the follow-up status-transition
call fails (the failure is only recorded in the trace); only a failing
creation call makes the attempt fall through to the retry/wait step. -/
theorem C3_creation_decides_outcome (env : WebhookEnv) (ord : OrderSnap)
    (ds : JVal) (oid rem a : Nat) (l : List FulfillmentOrder) (fo : FulfillmentOrder)
    (hfind : ((attemptOrder env ord a).2).fulfillments.find? webhookActionable = none)
    (hfos : env.fulfillmentOrders a = .ok l)
    (hfo : l.find? foOpen = some fo) :
    (∀ nf, env.createV2 a = .ok nf → (attemptStep env ord ds a).2 = .bSuccess) ∧
    (∀ nf e, env.createV2 a = .ok nf → nf.id ≠ 0 → jTruthy ds = true →
       env.eventCreate a nf.id = .fail e →
       (attemptStep env ord ds a).2 = .bSuccess ∧
       WEv.stratBEventErr nf.id e ∈ (attemptStep env ord ds a).1) ∧
    (∀ nf, env.createV2 a = .ok nf →
       fulLoopAux env ord ds oid (rem + 1) a =
         ((attemptStep env ord ds a).1 ++ [.logged "SUCCESS" (successMsgB oid)],
          { status := .success, retries := a - 1, targetStatus := some ds,
            error := none },
          [("SUCCESS", successMsgB oid)])) ∧
    (∀ e, env.createV2 a = .fail e → (attemptStep env ord ds a).2 = .noSuccess) := by
  have hstep : attemptStep env ord ds a =
      ((attemptOrder env ord a).1 ++
        [WEv.scan (attemptOrder env ord a).2.fulfillments.length] ++
        (stratB env a ds).1,
       (stratB env a ds).2) := by
    unfold attemptStep
    dsimp only
    rw [hfind]
  have hsbB : ∀ nf, env.createV2 a = .ok nf → (stratB env a ds).2 = .bSuccess := by
    intro nf hcv
    unfold stratB
    rw [hfos]
    dsimp only
    rw [hfo]
    dsimp only
    rw [hcv]
  have hsbTr : ∀ nf e, env.createV2 a = .ok nf → nf.id ≠ 0 → jTruthy ds = true →
      env.eventCreate a nf.id = .fail e →
      (stratB env a ds).1 =
        [WEv.stratBScan, .foFound fo.id, .createV2Ok nf.id,
         .stratBEventErr nf.id e] := by
    intro nf e hcv hne hjt hev
    unfold stratB
    rw [hfos]
    dsimp only
    rw [hfo]
    dsimp only
    rw [hcv]
    dsimp only
    rw [if_pos ⟨hne, hjt⟩, hev]
    rfl
  have hsbF : ∀ e, env.createV2 a = .fail e → (stratB env a ds).2 = .noSuccess := by
    intro e hcv
    unfold stratB
    rw [hfos]
    dsimp only
    rw [hfo]
    dsimp only
    rw [hcv]
  refine ⟨?_, ?_, ?_, ?_⟩
  · intro nf hcv
    rw [hstep]
    exact hsbB nf hcv
  · intro nf e hcv hne hjt hev
    refine ⟨by rw [hstep]; exact hsbB nf hcv, ?_⟩
    rw [hstep]
    dsimp only
    rw [hsbTr nf e hcv hne hjt hev]
    simp
  · intro nf hcv
    exact fulLoopAux_bSuccess env ord ds oid rem a (by rw [hstep]; exact hsbB nf hcv)
  · intro e hcv
    rw [hstep]
    exact hsbF e hcv

def w3ord : OrderSnap := { id := 88, tags := none, fulfillments := [] }

def w3env : WebhookEnv :=
  { settingsRows := .ok w1rows
    initialOrder := .ok w3ord
    tagUpdate := .ok ()
    refetch := fun _ => .ok w3ord
    fulfillmentOrders := fun _ => .ok [⟨7, "open"⟩]
    createV2 := fun _ => .ok ⟨9, some "success"⟩
    eventCreate := fun _ _ => .fail "event boom"
    logInsertOk := true }

def w3body : WBody := { id := some 88, nestedOrderId := none }

/-- Witness for the amended C3 at attempt 1 on a concrete order: creation
succeeds, the follow-up status event fails, and the attempt still succeeds. -/
theorem C3_creation_decides_outcome_witness :
    (attemptStep w3env w3ord (JVal.vStr "in_transit") 1).2 = .bSuccess ∧
    WEv.stratBEventErr 9 "event boom" ∈
      (attemptStep w3env w3ord (JVal.vStr "in_transit") 1).1 ∧
    fulLoopAux w3env w3ord (JVal.vStr "in_transit") 88 3 1 =
      ((attemptStep w3env w3ord (JVal.vStr "in_transit") 1).1 ++
        [.logged "SUCCESS" (successMsgB 88)],
       { status := .success, retries := 0, targetStatus := some (JVal.vStr "in_transit"),
         error := none },
       [("SUCCESS", successMsgB 88)]) := by
  have h := C3_creation_decides_outcome w3env w3ord (JVal.vStr "in_transit") 88 2 1
    [⟨7, "open"⟩] ⟨7, "open"⟩ (by decide) rfl (by decide)
  exact ⟨h.1 ⟨9, some "success"⟩ rfl,
    (h.2.1 ⟨9, some "success"⟩ "event boom" rfl (by decide) (by decide) rfl).2,
    h.2.2.1 ⟨9, some "success"⟩ rfl⟩

/-- Counterexample to C3 as stated: the creation call succeeds, the
follow-up status-transition call fails, and yet the fulfillment outcome is
`success` with `retries = 0` and the invocation answers 200 — the failing
second call does not make the attempt fail. -/
theorem C3_counterexample :
    (webhookHandler w3env w3body).fulSum =
      some { status := .success, retries := 0,
             targetStatus := some (JVal.vStr "in_transit"), error := none } ∧
    WEv.stratBEventErr 9 "event boom" ∈ (webhookHandler w3env w3body).trace ∧
    (webhookHandler w3env w3body).resp = ⟨200, "Success"⟩ := by decide

/-! ### C4 -/

/-- C4 (amended): in the manual override with a blue-badge target status,
if no fulfillment-order is open or in progress the handler does NOT fall
through to Strategy A/B: it terminates the invocation with a 400
"No OPEN fulfillment order found." response right after the
fulfillment-order scan. -/
theorem C4_blue_badge_terminates (env : ForceEnv) (b : FBody) (oid : Nat)
    (ds : String) (ord : OrderSnap) (l : List FulfillmentOrder)
    (hp : fbodyParams b = some (oid, ds))
    (hblue : (ds == "ready_for_delivery" || ds == "out_for_delivery" ||
              ds == "in_transit") = true)
    (hord : env.orderFetch = .ok ord)
    (hfos : env.fos = .ok l)
    (hnone : l.find? foOpen = none) :
    forceHandler env b =
      (⟨400, "No OPEN fulfillment order found."⟩, [.fetchOrder, .fosCall]) := by
  unfold forceHandler
  rw [hp]
  dsimp only
  rw [hord]
  dsimp only
  rw [if_pos hblue, hfos]
  dsimp only
  rw [hnone]

def c4ord : OrderSnap := { id := 12, tags := none, fulfillments := [⟨1, some "open"⟩] }

def c4env : ForceEnv :=
  { orderFetch := .ok c4ord
    fos := .ok []
    markRequest := .ok ()
    reopen := fun _ => .ok ()
    eventCreate := fun _ => .ok ()
    createV2 := .ok ⟨2, some "success"⟩
    sqlInsert := .ok () }

def c4body : FBody :=
  { orderId := some 12, status := some "in_transit",
    trackingNumber := none, trackingCompany := none }

/-- Witness for the amended C4 at a concrete blue-badge request with no open
fulfillment order. -/
theorem C4_blue_badge_terminates_witness :
    forceHandler c4env c4body =
      (⟨400, "No OPEN fulfillment order found."⟩, [.fetchOrder, .fosCall]) :=
  C4_blue_badge_terminates c4env c4body 12 "in_transit" c4ord [] rfl (by decide)
    rfl rfl rfl

/-- Counterexample to C4 as stated: with target `in_transit`, no open
fulfillment order, and an order that DOES hold a Strategy-A-actionable
fulfillment, the invocation terminates with 400 after the fulfillment-order
scan — the trace shows no Strategy A or Strategy B action at all. -/
theorem C4_counterexample :
    forceActionable ⟨1, some "open"⟩ = true ∧
    forceHandler c4env c4body =
      (⟨400, "No OPEN fulfillment order found."⟩, [.fetchOrder, .fosCall]) := by
  decide

/-! ### C5 -/

/-- C5 (amended): the manual override never calls the fulfillment re-open
endpoint on any input: the re-open branches require a target status of
`in_transit` or `out_for_delivery`, but those targets are intercepted by the
blue-badge branch before Strategy A/B is reached, so for target `in_transit`
neither `reopenFulfillment` nor `createFulfillmentEvent` is attempted. -/
theorem C5_reopen_unreachable (env : ForceEnv) (b : FBody) (fid : Nat) :
    FEv.reopenCall fid ∉ (forceHandler env b).2 := by
  unfold forceHandler
  cases hp : fbodyParams b with
  | none => simp
  | some p =>
    dsimp only
    cases ho : env.orderFetch with
    | fail e => simp
    | ok ord =>
      dsimp only
      by_cases hblue : (p.2 == "ready_for_delivery" || p.2 == "out_for_delivery" ||
          p.2 == "in_transit") = true
      · rw [if_pos hblue]
        cases hfos : env.fos with
        | fail e => simp
        | ok l =>
          dsimp only
          cases hfind : l.find? foOpen with
          | none => simp
          | some fo =>
            dsimp only
            cases hm : env.markRequest with
            | fail e => simp
            | ok u =>
              cases hi : env.sqlInsert with
              | fail e => simp
              | ok v => simp
      · have hblue' : p.2 ≠ "out_for_delivery" ∧ p.2 ≠ "in_transit" := by
          simp only [Bool.or_eq_true, beq_iff_eq] at hblue
          push_neg at hblue
          exact ⟨hblue.1.2, hblue.2⟩
        have hcond : ∀ st : Option String,
            ¬((st == some "success" &&
              (p.2 == "in_transit" || p.2 == "out_for_delivery")) = true) := by
          intro st
          simp [hblue'.1, hblue'.2]
        rw [if_neg hblue]
        cases hfa : ord.fulfillments.find? forceActionable with
        | some f =>
          dsimp only
          rw [if_neg (hcond f.status)]
          cases hev : env.eventCreate f.id with
          | fail e => simp
          | ok u =>
            cases hi : env.sqlInsert with
            | fail e => simp
            | ok v => simp
        | none =>
          dsimp only
          cases hfos : env.fos with
          | fail e => simp
          | ok l =>
            dsimp only
            cases hfind : l.find? foOpen with
            | none => simp
            | some fo =>
              dsimp only
              cases hcv : env.createV2 with
              | fail e => simp
              | ok nf =>
                dsimp only
                rw [if_neg (hcond nf.status)]
                cases hev : env.eventCreate nf.id with
                | fail e => simp
                | ok u =>
                  cases hi : env.sqlInsert with
                  | fail e => simp
                  | ok v => simp

def c5ord : OrderSnap := { id := 31, tags := none, fulfillments := [⟨3, some "success"⟩] }

def c5env : ForceEnv :=
  { orderFetch := .ok c5ord
    fos := .ok [⟨4, "open"⟩]
    markRequest := .ok ()
    reopen := fun _ => .ok ()
    eventCreate := fun _ => .ok ()
    createV2 := .ok ⟨6, some "success"⟩
    sqlInsert := .ok () }

def c5body : FBody :=
  { orderId := some 31, status := some "in_transit",
    trackingNumber := none, trackingCompany := none }

/-- Counterexample to C5 as stated: a manual override on an order whose only
fulfillment is terminal `success` with target `in_transit` is intercepted by
the blue-badge branch: the complete trace holds only the order fetch, the
fulfillment-order scan, the mark call and the log insert — no re-open call
and no status-event creation ever happens. -/
theorem C5_counterexample :
    forceHandler c5env c5body =
      (⟨200, "Marked as in_transit (Blue Badge)"⟩,
       [.fetchOrder, .fosCall, .markCall "mark_as_ready_for_delivery",
        .insertCall]) := by
  decide

/-! ### Environment congruence: the retry loop reads only the remote-call
fields it issues -/

theorem attemptStep_env_congr (env env' : WebhookEnv) (ord : OrderSnap)
    (ds : JVal) (att : Nat)
    (h1 : env'.refetch = env.refetch)
    (h2 : env'.fulfillmentOrders = env.fulfillmentOrders)
    (h3 : env'.createV2 = env.createV2)
    (h4 : env'.eventCreate = env.eventCreate) :
    attemptStep env' ord ds att = attemptStep env ord ds att := by
  unfold attemptStep attemptOrder stratA stratB
  rw [h1, h2, h3, h4]

theorem fulLoopAux_env_congr (env env' : WebhookEnv) (ord : OrderSnap)
    (ds : JVal) (oid : Nat)
    (h1 : env'.refetch = env.refetch)
    (h2 : env'.fulfillmentOrders = env.fulfillmentOrders)
    (h3 : env'.createV2 = env.createV2)
    (h4 : env'.eventCreate = env.eventCreate) :
    ∀ rem att, fulLoopAux env' ord ds oid rem att = fulLoopAux env ord ds oid rem att := by
  intro rem
  induction rem with
  | zero => intro att; rfl
  | succ n ih =>
    intro att
    unfold fulLoopAux
    dsimp only
    rw [attemptStep_env_congr env env' ord ds att h1 h2 h3 h4, ih (att + 1)]

theorem fulfillmentSection_env_congr (env env' : WebhookEnv) (s : SettingsObj)
    (oid : Nat) (ord : OrderSnap)
    (h1 : env'.refetch = env.refetch)
    (h2 : env'.fulfillmentOrders = env.fulfillmentOrders)
    (h3 : env'.createV2 = env.createV2)
    (h4 : env'.eventCreate = env.eventCreate) :
    fulfillmentSection env' s oid ord = fulfillmentSection env s oid ord := by
  unfold fulfillmentSection
  rw [fulLoopAux_env_congr env env' ord s.fulfillment_status oid h1 h2 h3 h4 3 1]

/-! ### C7 -/

/-- C7: a failing tag-update call is recorded as tag outcome `failed` with the
error captured, and does not abort the invocation: the fulfillment section,
the trace, the response and the persisted records are exactly what they would
be with a successful tag update. -/
theorem C7_tag_failure_isolated (env : WebhookEnv) (body : WBody)
    (rows : List (String × JVal)) (oid : Nat) (ord : OrderSnap) (e : String)
    (hrows : env.settingsRows = .ok rows)
    (hen : jTruthy (loadSettings rows).system_enabled = true)
    (hid : extractOrderId body = some oid)
    (hord : env.initialOrder = .ok ord)
    (htag : jTruthy (loadSettings rows).tagging_enabled = true)
    (htn : jTruthy (loadSettings rows).tag_name = true)
    (hninc : tagIncluded (loadSettings rows).tag_name ord.tags = false)
    (hfail : env.tagUpdate = .fail e) :
    (webhookHandler env body).tagSum =
      some { status := .failed, tagName := some (loadSettings rows).tag_name,
             error := some e } ∧
    (webhookHandler env body).fulSum =
      (webhookHandler {env with tagUpdate := .ok ()} body).fulSum ∧
    (webhookHandler env body).trace =
      (webhookHandler {env with tagUpdate := .ok ()} body).trace ∧
    (webhookHandler env body).dbRecords =
      (webhookHandler {env with tagUpdate := .ok ()} body).dbRecords ∧
    (webhookHandler env body).resp =
      (webhookHandler {env with tagUpdate := .ok ()} body).resp := by
  have hrun := webhookHandler_run env body rows oid ord hrows hen hid hord
  have hrun' := webhookHandler_run {env with tagUpdate := .ok ()} body rows oid ord
    hrows hen hid hord
  have hfs : fulfillmentSection {env with tagUpdate := .ok ()} (loadSettings rows) oid ord =
      fulfillmentSection env (loadSettings rows) oid ord :=
    fulfillmentSection_env_congr env _ (loadSettings rows) oid ord rfl rfl rfl rfl
  have htagS : tagSection env (loadSettings rows) ord =
      { status := .failed, tagName := some (loadSettings rows).tag_name,
        error := some e } := by
    unfold tagSection
    rw [if_pos (by rw [htag, htn]; rfl)]
    rw [if_neg (by rw [hninc]; simp)]
    rw [hfail]
  rw [hrun, hrun', hfs]
  exact ⟨by rw [htagS], rfl, rfl, rfl, rfl⟩

def w7rows : List (String × JVal) := [("tagging_enabled", JVal.vBool true)]

def w7ord : OrderSnap := { id := 42, tags := none, fulfillments := [] }

def w7env : WebhookEnv :=
  { settingsRows := .ok w7rows
    initialOrder := .ok w7ord
    tagUpdate := .fail "tag boom"
    refetch := fun _ => .ok w7ord
    fulfillmentOrders := fun _ => .ok []
    createV2 := fun _ => .fail "unused"
    eventCreate := fun _ _ => .fail "unused"
    logInsertOk := true }

def w7body : WBody := { id := some 42, nestedOrderId := none }

/-- Witness for C7 at a concrete order whose tag set does not yet hold the
configured tag, with the tag-update call failing. -/
theorem C7_tag_failure_isolated_witness :
    (webhookHandler w7env w7body).tagSum =
      some { status := .failed, tagName := some (JVal.vStr "test-ofd"),
             error := some "tag boom" } ∧
    (webhookHandler w7env w7body).fulSum =
      (webhookHandler {w7env with tagUpdate := .ok ()} w7body).fulSum ∧
    (webhookHandler w7env w7body).resp =
      (webhookHandler {w7env with tagUpdate := .ok ()} w7body).resp := by
  have h := C7_tag_failure_isolated w7env w7body w7rows 42 w7ord "tag boom" rfl
    (by decide) rfl rfl (by decide) (by decide) (by decide) rfl
  exact ⟨h.1, h.2.1, h.2.2.2.2⟩

/-! ### C6 -/

/-- C6 (amended): the two entry points disagree on the actionable-fulfillment
predicate.  The webhook scan treats a fulfillment as actionable exactly when
its status is success, open, processing or null, and selects a first
null-status fulfillment; the manual override's scan requires status success,
open or processing and never selects a null-status fulfillment. -/
theorem C6_actionable_predicates :
    (∀ f : Fulfillment, webhookActionable f = true ↔
       (f.status = some "success" ∨ f.status = some "open" ∨
        f.status = some "processing" ∨ f.status = none)) ∧
    (∀ f : Fulfillment, forceActionable f = true ↔
       (f.status = some "success" ∨ f.status = some "open" ∨
        f.status = some "processing")) ∧
    (∀ (fid : Nat) (rest : List Fulfillment),
       (Fulfillment.mk fid none :: rest).find? webhookActionable =
         some (Fulfillment.mk fid none)) ∧
    (∀ fid : Nat, forceActionable (Fulfillment.mk fid none) = false) := by
  refine ⟨?_, ?_, ?_, ?_⟩
  · intro f
    simp [webhookActionable, Bool.or_eq_true, beq_iff_eq, or_assoc]
  · intro f
    simp [forceActionable, Bool.or_eq_true, beq_iff_eq, or_assoc]
  · intro fid rest
    exact List.find?_cons_of_pos rest rfl
  · intro fid
    rfl

def c6ord : OrderSnap := { id := 9, tags := none, fulfillments := [⟨1, none⟩] }

def c6env : ForceEnv :=
  { orderFetch := .ok c6ord
    fos := .ok []
    markRequest := .ok ()
    reopen := fun _ => .ok ()
    eventCreate := fun _ => .ok ()
    createV2 := .ok ⟨2, some "success"⟩
    sqlInsert := .ok () }

def c6body : FBody :=
  { orderId := some 9, status := some "delivered",
    trackingNumber := none, trackingCompany := none }

/-- Counterexample to C6 as stated: in the manual override, an order whose
only fulfillment has a null status is NOT selected by the Strategy A scan —
the handler proceeds to the fulfillment-order scan and, with none open,
rejects the request, instead of acting on the null-status fulfillment. -/
theorem C6_counterexample :
    forceActionable ⟨1, none⟩ = false ∧
    forceHandler c6env c6body =
      (⟨400, "No open fulfillment orders found"⟩, [.fetchOrder, .fosCall]) := by
  decide

/-! ### C8 -/

theorem fulfillmentSection_flag (env : WebhookEnv) (r : Rem (List (String × JVal)))
    (i : Rem OrderSnap) (t : Rem Unit) (b : Bool) (s : SettingsObj) (oid : Nat)
    (ord : OrderSnap) :
    fulfillmentSection
      { settingsRows := r, initialOrder := i, tagUpdate := t,
        refetch := env.refetch, fulfillmentOrders := env.fulfillmentOrders,
        createV2 := env.createV2, eventCreate := env.eventCreate,
        logInsertOk := b } s oid ord =
      fulfillmentSection env s oid ord :=
  fulfillmentSection_env_congr env _ s oid ord rfl rfl rfl rfl

/-- C8 (amended): in the webhook entry point a log-store insert failure is
swallowed: response, summaries and trace are unchanged (only the persisted
records differ).  In the manual override the `webhook_logs` INSERTs are not
wrapped: when the insert fails, either it was never reached, or the outer
catch turns the invocation into a 500 response carrying the insert error —
the success response is never produced with a failing insert. -/
theorem C8_log_insert_isolation :
    (∀ (env : WebhookEnv) (body : WBody) (flag : Bool),
       (webhookHandler {env with logInsertOk := flag} body).resp =
         (webhookHandler env body).resp ∧
       (webhookHandler {env with logInsertOk := flag} body).tagSum =
         (webhookHandler env body).tagSum ∧
       (webhookHandler {env with logInsertOk := flag} body).fulSum =
         (webhookHandler env body).fulSum ∧
       (webhookHandler {env with logInsertOk := flag} body).trace =
         (webhookHandler env body).trace) ∧
    (∀ (fenv : ForceEnv) (fb : FBody) (e : String),
       fenv.sqlInsert = .fail e →
       (forceHandler fenv fb).1 = ⟨500, e⟩ ∨
         FEv.insertCall ∉ (forceHandler fenv fb).2) := by
  constructor
  · intro env body flag
    unfold webhookHandler
    dsimp only
    cases env.settingsRows with
    | fail e =>
      cases extractOrderId body with
      | none => split_ifs <;> exact ⟨rfl, rfl, rfl, rfl⟩
      | some oid =>
        cases env.initialOrder with
        | fail e2 => split_ifs <;> exact ⟨rfl, rfl, rfl, rfl⟩
        | ok ord =>
          dsimp only
          split_ifs <;> refine ⟨?_, ?_, ?_, ?_⟩ <;>
            (try simp only [fulfillmentSection_flag env]) <;> rfl
    | ok rows =>
      cases extractOrderId body with
      | none => split_ifs <;> exact ⟨rfl, rfl, rfl, rfl⟩
      | some oid =>
        cases env.initialOrder with
        | fail e2 => split_ifs <;> exact ⟨rfl, rfl, rfl, rfl⟩
        | ok ord =>
          dsimp only
          split_ifs <;> refine ⟨?_, ?_, ?_, ?_⟩ <;>
            (try simp only [fulfillmentSection_flag env]) <;> rfl
  · intro fenv fb e hsql
    unfold forceHandler
    cases hp : fbodyParams fb with
    | none => right; simp
    | some p =>
      dsimp only
      cases ho : fenv.orderFetch with
      | fail e2 => right; simp
      | ok ord =>
        dsimp only
        by_cases hblue : (p.2 == "ready_for_delivery" || p.2 == "out_for_delivery" ||
            p.2 == "in_transit") = true
        · rw [if_pos hblue]
          cases hfos : fenv.fos with
          | fail e2 => right; simp
          | ok l =>
            dsimp only
            cases hfind : l.find? foOpen with
            | none => right; simp
            | some fo =>
              dsimp only
              cases hm : fenv.markRequest with
              | fail e2 => right; simp
              | ok u =>
                rw [hsql]
                left
                rfl
        · rw [if_neg hblue]
          cases hfa : ord.fulfillments.find? forceActionable with
          | some f =>
            dsimp only
            cases hev : fenv.eventCreate f.id with
            | fail e2 =>
              right
              split <;> simp_all
            | ok u =>
              rw [hsql]
              left
              rfl
          | none =>
            dsimp only
            cases hfos : fenv.fos with
            | fail e2 => right; simp
            | ok l =>
              dsimp only
              cases hfind : l.find? foOpen with
              | none => right; simp
              | some fo =>
                dsimp only
                cases hcv : fenv.createV2 with
                | fail e2 => right; simp
                | ok nf =>
                  dsimp only
                  cases hev : fenv.eventCreate nf.id with
                  | fail e2 =>
                    right
                    split <;> simp_all
                  | ok u =>
                    rw [hsql]
                    left
                    rfl

def c8ord : OrderSnap := { id := 21, tags := none, fulfillments := [⟨3, some "open"⟩] }

def c8env : ForceEnv :=
  { orderFetch := .ok c8ord
    fos := .ok []
    markRequest := .ok ()
    reopen := fun _ => .ok ()
    eventCreate := fun _ => .ok ()
    createV2 := .ok ⟨6, some "success"⟩
    sqlInsert := .fail "db down" }

def c8body : FBody :=
  { orderId := some 21, status := some "delivered",
    trackingNumber := none, trackingCompany := none }

/-- Witness for the amended C8: a concrete webhook run is unchanged by a
disabled log store, and a concrete manual-override run with a failing insert
satisfies the 500-or-unreached dichotomy. -/
theorem C8_log_insert_isolation_witness :
    ((webhookHandler {w1env with logInsertOk := false} w1body).resp =
       (webhookHandler w1env w1body).resp ∧
     (webhookHandler {w1env with logInsertOk := false} w1body).fulSum =
       (webhookHandler w1env w1body).fulSum) ∧
    ((forceHandler c8env c8body).1 = ⟨500, "db down"⟩ ∨
      FEv.insertCall ∉ (forceHandler c8env c8body).2) := by
  refine ⟨⟨?_, ?_⟩, ?_⟩
  · exact (C8_log_insert_isolation.1 w1env w1body false).1
  · exact (C8_log_insert_isolation.1 w1env w1body false).2.2.1
  · exact C8_log_insert_isolation.2 c8env c8body "db down" rfl

/-- Counterexample to C8 as stated: in the manual override, the same
invocation answers 500 with the insert error when the log insert fails, but
200 when it succeeds — the response is not independent of the log store. -/
theorem C8_counterexample :
    (forceHandler c8env c8body).1 = ⟨500, "db down"⟩ ∧
    (forceHandler {c8env with sqlInsert := .ok ()} c8body).1 =
      ⟨200, "Status updated successfully"⟩ := by decide

/-! ### C10 -/

/-- C10: the webhook short-circuits with the neutral 200 "System disabled"
response exactly when the loaded `system_enabled` value (default `true`,
overwritten verbatim by settings rows) is JavaScript-falsy; the stored
string "false" is truthy, so the invocation proceeds as enabled. -/
theorem C10_system_enabled_gate (env : WebhookEnv) (body : WBody)
    (rows : List (String × JVal))
    (hrows : env.settingsRows = .ok rows) :
    ((webhookHandler env body).resp = ⟨200, "System disabled"⟩ ↔
      jTruthy (loadSettings rows).system_enabled = false) ∧
    (loadSettings []).system_enabled = .vBool true ∧
    jTruthy (loadSettings [("system_enabled", JVal.vStr "false")]).system_enabled =
      true := by
  refine ⟨?_, by decide, by decide⟩
  unfold webhookHandler
  rw [hrows]
  dsimp only
  by_cases hgate : jTruthy (loadSettings rows).system_enabled = true
  · rw [if_neg (by simp [hgate])]
    simp only [hgate]
    constructor
    · intro h
      exfalso
      cases hid : extractOrderId body with
      | none =>
        rw [hid] at h
        simp at h
      | some oid =>
        rw [hid] at h
        dsimp only at h
        cases hord : env.initialOrder with
        | fail e =>
          rw [hord] at h
          simp at h
        | ok ord =>
          rw [hord] at h
          simp at h
    · intro h
      simp at h
  · rw [if_pos (by simpa using hgate)]
    simp only [Bool.not_eq_true] at hgate
    simp [hgate]

def w10rows : List (String × JVal) := [("system_enabled", JVal.vStr "false")]

def w10env : WebhookEnv :=
  { settingsRows := .ok w10rows
    initialOrder := .ok w1ord
    tagUpdate := .ok ()
    refetch := fun _ => .ok w1ord
    fulfillmentOrders := fun _ => .ok []
    createV2 := fun _ => .fail "unused"
    eventCreate := fun _ _ => .fail "unused"
    logInsertOk := true }

/-- Witness for C10: with the stored string "false" the gate does not
short-circuit — the invocation proceeds and answers the normal success
response, not the disabled one. -/
theorem C10_system_enabled_gate_witness :
    ¬((webhookHandler w10env w1body).resp = ⟨200, "System disabled"⟩) ∧
    jTruthy (loadSettings w10rows).system_enabled = true := by
  have h := C10_system_enabled_gate w10env w1body w10rows rfl
  refine ⟨fun hc => ?_, by decide⟩
  have hfalse := h.1.mp hc
  have htrue : jTruthy (loadSettings w10rows).system_enabled = true := by decide
  rw [htrue] at hfalse
  exact absurd hfalse (by decide)
